import Mathlib

/-!
Shallow embedding of the answer-generation pipeline of `llm_service.py`
(poll-automation repository), together with proofs of the specified
properties.

Modelling conventions:
- Python floats are modelled as rationals.
- Randomness (the `random` module) is modelled as an explicit oracle
  record `Rng` holding the draws a single pipeline step consumes.
- External library behaviour that the repository treats as opaque
  (the regex engine result for the rating pattern, `float()` applied to
  a string) is a parameter record `PyLib`; the outcome of `re.search`
  for the brace span and of `json.loads` on that span is carried on the
  `RawResponse` record, since the parser only ever branches on those
  outcomes.
- Code that can raise is embedded in `Except String`; the `try/except`
  blocks of the source become `match` on the `Except` value.
-/

/-- Characters of a string, used so that every string operation below is a
total structural function the kernel can evaluate. -/
def strChars (s : String) : List Char := s.data

/-- Model of Python `str.lower` (ASCII case folding). -/
def pyLower (s : String) : String := ⟨s.data.map Char.toLower⟩

/-- Model of Python `str.strip`: drop leading and trailing whitespace. -/
def pyStrip (s : String) : String :=
  ⟨((s.data.dropWhile Char.isWhitespace).reverse.dropWhile Char.isWhitespace).reverse⟩

/-- Whether `pat` is a prefix of `hay` (character lists). -/
def listPrefixOf : List Char → List Char → Bool
  | [], _ => true
  | _ :: _, [] => false
  | p :: ps, h :: hs => p == h && listPrefixOf ps hs

/-- Whether `pat` occurs as a contiguous substring of `hay`. -/
def listContainsSub (pat : List Char) : List Char → Bool
  | [] => pat.isEmpty
  | h :: hs => listPrefixOf pat (h :: hs) || listContainsSub pat hs

/-- Model of the Python membership test `pat in hay` on strings:
substring containment, with the empty pattern contained in everything. -/
def containsSub (hay pat : String) : Bool := listContainsSub pat.data hay.data

/-- Model of the Python membership test for a single character in a string. -/
def pyContainsChar (s : String) (c : Char) : Bool := s.data.any (fun d => d == c)

/-- The opening brace character, written by code point to keep string
literals brace-free. -/
def lbrace : Char := Char.ofNat 123

/-- The closing brace character. -/
def rbrace : Char := Char.ofNat 125

/-- Model of the Python slice-and-ellipsis truncation `text[:200] + "..."`. -/
def pyTruncate200 (s : String) : String := ⟨s.data.take 200⟩ ++ "..."

/-- JSON values as produced by `json.loads`; object fields are the
key-unique association list of the resulting Python dict. -/
inductive JValue where
  | jnull : JValue
  | jbool : Bool → JValue
  | jnum : ℚ → JValue
  | jstr : String → JValue
  | jarr : List JValue → JValue
  | jobj : List (String × JValue) → JValue

/-- Model of Python `dict.get(key, default)` on a parsed JSON object. -/
def jget : List (String × JValue) → String → JValue → JValue
  | [], _, d => d
  | (k, v) :: rest, key, d => if k == key then v else jget rest key d

/-- Whether a parsed JSON object carries the given key. -/
def hasKey : List (String × JValue) → String → Bool
  | [], _ => false
  | (k, _) :: rest, key => k == key || hasKey rest key

/-- Model of Python `float(x)` applied to a JSON-decoded value: numbers
pass through, booleans coerce, strings go through the runtime string
parser (a `PyLib` parameter at call sites), and `None`, lists and dicts
raise (here: `none`). -/
def pyFloat (strFloat : String → Option ℚ) : JValue → Option ℚ
  | JValue.jnum q => some q
  | JValue.jbool b => some (if b then 1 else 0)
  | JValue.jstr s => strFloat s
  | _ => none

/-- The `Question` dataclass. Options are Python dicts that may lack the
`value` or `label` key. -/
structure Opt where
  value : Option String
  label : Option String

/-- The `Question` dataclass of `llm_service.py`. -/
structure Question where
  id : Int
  text : String
  qtype : String
  options : List Opt
  required : Bool

/-- The `Answer` dataclass. `value` is whatever the JSON path extracted
(the free-text and fallback paths always produce strings); `reasoning`
likewise. -/
structure Answer where
  question_id : Int
  value : JValue
  confidence : ℚ
  reasoning : JValue

/-- Oracle for the random draws one pipeline step consumes. Index fields
select an element of the list passed to `random.choice`; `ratingN`
selects the value of `random.randint(3, 7)`; `confDrop` is the draw of
`random.uniform(0.1, 0.3)` in the Humanizer. -/
structure Rng where
  coinIdx : ℕ
  optIdx : ℕ
  ratingN : ℕ
  phraseIdx : ℕ
  addUncertainty : Bool
  uncIdx : ℕ
  addHedge : Bool
  hedgeIdx : ℕ
  confDrop : ℚ

/-- External runtime behaviour the pipeline delegates to libraries:
`float()` on strings and `re.findall` for the rating pattern. -/
structure PyLib where
  strFloat : String → Option ℚ
  findall110 : String → List String

/-- A raw provider response as the parser sees it: the text, the result
of `re.search` for the brace span (with DOTALL), and the result of
`json.loads` on that span (`none` when `loads` raises). -/
structure RawResponse where
  text : String
  braceSpan : Option String
  spanJson : Option JValue

/-- Which provider credentials were configured at service construction. -/
structure Config where
  openaiAvail : Bool
  anthropicAvail : Bool

/-- Model of `random.choice(xs)`: raises `IndexError` on an empty
sequence, otherwise returns the element the oracle index selects. -/
def pyChoice {α : Type} (xs : List α) (idx : ℕ) : Except String α :=
  match xs with
  | [] => Except.error "IndexError: empty sequence"
  | x :: rest => Except.ok (List.getD (x :: rest) (idx % (x :: rest).length) x)

/-- Model of Python list indexing `xs[n]`. -/
def pyIndex {α : Type} : List α → ℕ → Except String α
  | [], _ => Except.error "IndexError: list index out of range"
  | x :: _, 0 => Except.ok x
  | _ :: xs, n + 1 => pyIndex xs n

/-- Model of `random.randint(a, b)` (inclusive bounds), driven by the
oracle value `n`. -/
def pyRandint (a b n : ℕ) : ℕ := a + n % (b - a + 1)

/-- Uncertainty phrase pool from the service constructor. -/
def uncertaintyPatterns : List String :=
  ["I\x27m not entirely sure, but I think", "If I had to guess, I\x27d say",
   "From what I remember", "I believe", "As far as I know"]

/-- Confidence phrase pool from the service constructor (declared by the
source but unused by the Humanizer). -/
def confidencePatterns : List String :=
  ["I\x27m pretty confident that", "I\x27m fairly certain",
   "I think it\x27s safe to say", "I\x27m quite sure"]

/-- Hedging phrase pool from the service constructor. -/
def hedgingPatterns : List String :=
  ["probably", "likely", "I suppose", "perhaps",
   "it seems to me", "in my opinion", "I\x27d say"]

/-- Non-committal phrases the fallback synthesizer draws from for text
questions. -/
def fallbackPhrases : List String :=
  ["I\x27m not sure about this", "I don\x27t have a strong opinion",
   "I\x27d need to think about this more", "Not really sure"]

/-- Affirmative tokens scanned by the yes-no free-text extraction. -/
def affirmativeTokens : List String := ["yes", "true", "agree", "correct"]

/-- Negative tokens scanned by the yes-no free-text extraction. -/
def negativeTokens : List String := ["no", "false", "disagree", "incorrect"]

/-- Fixed reasoning string of every fallback answer. -/
def fallbackReasoning : String := "Fallback answer due to API failure"

/-- Value chosen by `_generate_fallback_answer` before the Answer record
is built; each branch mirrors the source, including the guarded
`random.choice(question.options)` and the eager evaluation of the
default argument `question.options[0].get(..)`. -/
def fallbackValueE (q : Question) (rng : Rng) : Except String String :=
  if q.qtype == "yes-no" then
    pyChoice ["yes", "no"] rng.coinIdx
  else if (q.qtype == "single-choice" || q.qtype == "multiple-choice")
      && !q.options.isEmpty then
    match pyChoice q.options rng.optIdx, pyIndex q.options 0 with
    | Except.ok chosen, Except.ok first =>
        Except.ok (chosen.value.getD (first.label.getD ""))
    | Except.error e, _ => Except.error e
    | _, Except.error e => Except.error e
  else if q.qtype == "rating" then
    Except.ok (toString (pyRandint 3 7 rng.ratingN))
  else
    pyChoice fallbackPhrases rng.phraseIdx

/-- Embedding of `_generate_fallback_answer`. -/
def generateFallbackAnswer (q : Question) (rng : Rng) : Except String Answer :=
  match fallbackValueE q rng with
  | Except.ok v =>
      Except.ok { question_id := q.id, value := JValue.jstr v,
                  confidence := 3/10, reasoning := JValue.jstr fallbackReasoning }
  | Except.error e => Except.error e

/-- The option-scanning loop of `_extract_answer_from_text` for choice
questions: return the first option whose label-or-value text occurs in
the lowered response. -/
def findOptionMatch : List Opt → String → Option String
  | [], _ => none
  | o :: rest, tl =>
    if containsSub tl (pyLower (o.label.getD (o.value.getD ""))) then
      some (o.value.getD (o.label.getD ""))
    else findOptionMatch rest tl

/-- The branch body of `_extract_answer_from_text` after the initial
`text = text.strip()` reassignment. -/
def extractFromStripped (lib : PyLib) (q : Question) (text : String)
    (rng : Rng) : Except String String :=
  if q.qtype == "yes-no" then
    if affirmativeTokens.any (fun w => containsSub (pyLower text) w) then
      Except.ok "yes"
    else if negativeTokens.any (fun w => containsSub (pyLower text) w) then
      Except.ok "no"
    else
      pyChoice ["yes", "no"] rng.coinIdx
  else if (q.qtype == "single-choice" || q.qtype == "multiple-choice")
      && !q.options.isEmpty then
    match findOptionMatch q.options (pyLower text) with
    | some v => Except.ok v
    | none =>
      match pyChoice q.options rng.optIdx, pyIndex q.options 0 with
      | Except.ok chosen, Except.ok first =>
          Except.ok (chosen.value.getD (first.label.getD ""))
      | Except.error e, _ => Except.error e
      | _, Except.error e => Except.error e
  else if q.qtype == "rating" then
    match lib.findall110 text with
    | n :: _ => Except.ok n
    | [] => Except.ok (toString (pyRandint 3 7 rng.ratingN))
  else
    if 200 < text.data.length then Except.ok (pyTruncate200 text)
    else if text == "" then Except.ok "I\x27m not sure about this one."
    else Except.ok text

/-- Embedding of `_extract_answer_from_text`: strip once, then branch on
the question type. -/
def extractAnswerFromText (lib : PyLib) (q : Question) (text0 : String)
    (rng : Rng) : Except String String :=
  extractFromStripped lib q (pyStrip text0) rng

/-- The free-text arm of `_parse_llm_response`: wrap the extracted value
in an Answer with confidence 0.7 and the fixed reasoning string. -/
def parseFreeText (lib : PyLib) (q : Question) (text : String)
    (rng : Rng) : Except String Answer :=
  match extractAnswerFromText lib q text rng with
  | Except.ok v =>
      Except.ok { question_id := q.id, value := JValue.jstr v,
                  confidence := 7/10,
                  reasoning := JValue.jstr "Parsed from text response" }
  | Except.error e => Except.error e

/-- The body of the `try` block of `_parse_llm_response`: JSON-first
strategy, then free-text extraction; errors model the exceptions Python
would raise (ValueError from `float()`, AttributeError from `.get` on a
non-dict, JSONDecodeError from `json.loads`). -/
def parseAttempt (lib : PyLib) (q : Question) (r : RawResponse)
    (rng : Rng) : Except String Answer :=
  if pyContainsChar r.text lbrace && pyContainsChar r.text rbrace then
    match r.braceSpan with
    | some _ =>
      match r.spanJson with
      | some (JValue.jobj fs) =>
        match pyFloat lib.strFloat (jget fs "confidence" (JValue.jnum (7/10))) with
        | some c =>
            Except.ok { question_id := q.id,
                        value := jget fs "answer" (JValue.jstr ""),
                        confidence := c,
                        reasoning := jget fs "reasoning" (JValue.jstr "") }
        | none => Except.error "ValueError: could not convert to float"
      | some _ => Except.error "AttributeError: object has no attribute get"
      | none => Except.error "JSONDecodeError"
    | none => parseFreeText lib q r.text rng
  else parseFreeText lib q r.text rng

/-- Embedding of `_parse_llm_response`: the `except` clause replaces any
exception of the attempt by the fallback synthesizer answer. -/
def parseLLMResponse (lib : PyLib) (q : Question) (r : RawResponse)
    (rng : Rng) : Except String Answer :=
  match parseAttempt lib q r rng with
  | Except.ok a => Except.ok a
  | Except.error _ => generateFallbackAnswer q rng

/-- The `try` block of `generate_answer` for one attempt: pick the
provider by availability (OpenAI preferred), parse a successful raw
response, and raise when no client is configured or the provider call
failed. -/
def generateAttempt (lib : PyLib) (cfg : Config)
    (provider : Except String RawResponse) (q : Question)
    (rng : Rng) : Except String Answer :=
  if cfg.openaiAvail then
    match provider with
    | Except.ok raw => parseLLMResponse lib q raw rng
    | Except.error e => Except.error e
  else if cfg.anthropicAvail then
    match provider with
    | Except.ok raw => parseLLMResponse lib q raw rng
    | Except.error e => Except.error e
  else Except.error "No LLM clients available"

/-- The `except` clause of `generate_answer`: every raised exception is
replaced by a fallback answer (whose own failure would propagate). -/
def generateAnswerBody (lib : PyLib) (cfg : Config)
    (provider : Except String RawResponse) (q : Question)
    (rng : Rng) : Except String Answer :=
  match generateAttempt lib cfg provider q rng with
  | Except.ok a => Except.ok a
  | Except.error _ => generateFallbackAnswer q rng

/-- The tenacity retry combinator `stop_after_attempt`: run the body,
and while it raises, rerun it, up to `fuel` attempts in total. Returns
the number of attempts actually made together with the final outcome. -/
def retryCall (body : ℕ → Except String Answer) :
    ℕ → ℕ → ℕ × Except String Answer
  | 0, attempt => (attempt, Except.error "RetryError")
  | fuel + 1, attempt =>
    match body attempt with
    | Except.ok a => (attempt + 1, Except.ok a)
    | Except.error e =>
      if fuel = 0 then (attempt + 1, Except.error e)
      else retryCall body fuel (attempt + 1)

/-- `generate_answer` as decorated: the retry policy
`stop_after_attempt(3)` wrapped around the body, with the per-attempt
provider outcome supplied by the oracle `provider`. The first component
counts the attempts the wrapper actually made. -/
def generateAnswerWithCount (lib : PyLib) (cfg : Config)
    (provider : ℕ → Except String RawResponse) (q : Question)
    (rng : Rng) : ℕ × Except String Answer :=
  retryCall (fun i => generateAnswerBody lib cfg (provider i) q rng) 3 0

/-- The uncertainty-prefix step of the Humanizer (probability 0.3 in the
source, here the oracle flag `addUncertainty`): a drawn phrase followed
by the lower-cased original value. -/
def uncertainText (rng : Rng) (s : String) : String :=
  if rng.addUncertainty then
    (List.getD uncertaintyPatterns
      (rng.uncIdx % uncertaintyPatterns.length) "") ++ " " ++ pyLower s
  else s

/-- The hedging-suffix step of the Humanizer (probability 0.2 in the
source, here the oracle flag `addHedge`). -/
def hedgedText (rng : Rng) (s : String) : String :=
  if rng.addHedge then
    s ++ ", " ++ (List.getD hedgingPatterns
      (rng.hedgeIdx % hedgingPatterns.length) "")
  else s

/-- The value rewriting of the Humanizer: only string values of
text-type questions are touched. -/
def humanizedValue (a : Answer) (q : Question) (rng : Rng) : JValue :=
  match a.value with
  | JValue.jstr s =>
    if q.qtype == "text" then JValue.jstr (hedgedText rng (uncertainText rng s))
    else a.value
  | _ => a.value

/-- Embedding of `make_answer_human_like`: possibly rewrite the value of
string-valued text answers, then lower the confidence by the drawn
amount, floored at 0.2. -/
def makeAnswerHumanLike (a : Answer) (q : Question) (rng : Rng) : Answer :=
  { a with value := humanizedValue a q rng,
           confidence := max (2/10) (a.confidence - rng.confDrop) }

/-- Per-question oracle bundle consumed by one orchestrated generation:
the provider outcomes per retry attempt, the draws the generation and
parsing consume, the draws of the dead gather-exception branch, and the
draws of the Humanizer. -/
structure Env where
  provider : ℕ → Except String RawResponse
  genRng : Rng
  gatherRng : Rng
  humRng : Rng

/-- One iteration of the gather loop in `process_poll_questions`: take
the generation result, replace a raised exception by a fresh fallback
answer, and humanize. -/
def processOne (lib : PyLib) (cfg : Config) (qe : Question × Env) :
    Except String Answer :=
  match (generateAnswerWithCount lib cfg qe.2.provider qe.1 qe.2.genRng).2 with
  | Except.ok a => Except.ok (makeAnswerHumanLike a qe.1 qe.2.humRng)
  | Except.error _ =>
    match generateFallbackAnswer qe.1 qe.2.gatherRng with
    | Except.ok a => Except.ok (makeAnswerHumanLike a qe.1 qe.2.humRng)
    | Except.error e => Except.error e

/-- The batching of `process_poll_questions`: the slices
`questions[i:i+3]` in input order. -/
def chunksOf3 {α : Type} : List α → List (List α)
  | [] => []
  | [a] => [[a]]
  | [a, b] => [[a, b]]
  | a :: b :: c :: rest => [a, b, c] :: chunksOf3 rest

/-- Sequential effectful map: the Python loop that appends result after
result and aborts at the first raised exception. -/
def mapExcept {α β : Type} (f : α → Except String β) :
    List α → Except String (List β)
  | [] => Except.ok []
  | x :: xs =>
    match f x with
    | Except.error e => Except.error e
    | Except.ok y =>
      match mapExcept f xs with
      | Except.error e => Except.error e
      | Except.ok ys => Except.ok (y :: ys)

/-- Embedding of `process_poll_questions`: batches of three processed in
order, each batch gathered then humanized, results concatenated. The
inter-batch sleep has no effect on the returned value and is omitted. -/
def processPollQuestions (lib : PyLib) (cfg : Config)
    (qs : List (Question × Env)) : Except String (List Answer) :=
  match mapExcept (fun b => mapExcept (processOne lib cfg) b) (chunksOf3 qs) with
  | Except.ok bss => Except.ok bss.flatten
  | Except.error e => Except.error e

/-- Round half to even on integers scaled by ten thousand: the rounding
Python `round(x, 4)` performs (ignoring binary-float representation
effects, which the rational model abstracts away). -/
def roundHalfEven (q : ℚ) : ℤ :=
  let f := Int.floor q
  if q - f < 1/2 then f
  else if 1/2 < q - f then f + 1
  else if f % 2 = 0 then f else f + 1

/-- Model of Python `round(x, 4)`. -/
def pyRound4 (q : ℚ) : ℚ := (roundHalfEven (q * 10000) : ℚ) / 10000

/-- The record `get_stats` returns. -/
structure Stats where
  total_requests : ℕ
  total_cost : ℚ
  avg_cost_per_request : ℚ
  openai_available : Bool
  anthropic_available : Bool

/-- Embedding of `get_stats`. -/
def getStats (cfg : Config) (totalCost : ℚ) (requestCount : ℕ) : Stats :=
  { total_requests := requestCount,
    total_cost := pyRound4 totalCost,
    avg_cost_per_request := pyRound4 (totalCost / ((max 1 requestCount : ℕ) : ℚ)),
    openai_available := cfg.openaiAvail,
    anthropic_available := cfg.anthropicAvail }

theorem fallbackValueE_ok (q : Question) (rng : Rng) :
    ∃ v, fallbackValueE q rng = Except.ok v := by
  unfold fallbackValueE
  split
  · exact ⟨_, rfl⟩
  · split
    · rename_i h
      cases hopt : q.options with
      | nil => rw [hopt] at h; simp at h
      | cons o os => exact ⟨_, rfl⟩
    · split
      · exact ⟨_, rfl⟩
      · exact ⟨_, rfl⟩

theorem generateFallbackAnswer_ok (q : Question) (rng : Rng) :
    ∃ v, generateFallbackAnswer q rng =
      Except.ok { question_id := q.id, value := JValue.jstr v,
                  confidence := 3/10,
                  reasoning := JValue.jstr fallbackReasoning } := by
  obtain ⟨v, hv⟩ := fallbackValueE_ok q rng
  refine ⟨v, ?_⟩
  unfold generateFallbackAnswer
  rw [hv]

theorem extractAnswerFromText_ok (lib : PyLib) (q : Question) (text0 : String)
    (rng : Rng) : ∃ v, extractAnswerFromText lib q text0 rng = Except.ok v := by
  unfold extractAnswerFromText extractFromStripped
  split
  · split
    · exact ⟨_, rfl⟩
    · split
      · exact ⟨_, rfl⟩
      · exact ⟨_, rfl⟩
  · split
    · rename_i h
      cases hopt : q.options with
      | nil => rw [hopt] at h; simp at h
      | cons o os =>
        split
        · exact ⟨_, rfl⟩
        · exact ⟨_, rfl⟩
    · split
      · split
        · exact ⟨_, rfl⟩
        · exact ⟨_, rfl⟩
      · split
        · exact ⟨_, rfl⟩
        · split
          · exact ⟨_, rfl⟩
          · exact ⟨_, rfl⟩

theorem parseFreeText_ok (lib : PyLib) (q : Question) (text : String)
    (rng : Rng) : ∃ a, parseFreeText lib q text rng = Except.ok a ∧
      a.question_id = q.id := by
  obtain ⟨v, hv⟩ := extractAnswerFromText_ok lib q text rng
  refine ⟨{ question_id := q.id, value := JValue.jstr v, confidence := 7/10,
            reasoning := JValue.jstr "Parsed from text response" }, ?_, rfl⟩
  unfold parseFreeText
  rw [hv]

theorem parseLLMResponse_ok (lib : PyLib) (q : Question) (r : RawResponse)
    (rng : Rng) : ∃ a, parseLLMResponse lib q r rng = Except.ok a ∧
      a.question_id = q.id := by
  unfold parseLLMResponse
  cases hpa : parseAttempt lib q r rng with
  | ok a =>
    refine ⟨a, rfl, ?_⟩
    unfold parseAttempt at hpa
    split at hpa
    · split at hpa
      · split at hpa
        · split at hpa
          · cases hpa; rfl
          · cases hpa
        · cases hpa
        · cases hpa
      · obtain ⟨b, hb, hbq⟩ := parseFreeText_ok lib q r.text rng
        rw [hb] at hpa
        cases hpa
        exact hbq
    · obtain ⟨b, hb, hbq⟩ := parseFreeText_ok lib q r.text rng
      rw [hb] at hpa
      cases hpa
      exact hbq
  | error e =>
    obtain ⟨v, hv⟩ := generateFallbackAnswer_ok q rng
    exact ⟨_, hv, rfl⟩

theorem generateAnswerBody_ok (lib : PyLib) (cfg : Config)
    (provider : Except String RawResponse) (q : Question) (rng : Rng) :
    ∃ a, generateAnswerBody lib cfg provider q rng = Except.ok a ∧
      a.question_id = q.id := by
  unfold generateAnswerBody
  cases hat : generateAttempt lib cfg provider q rng with
  | ok a =>
    refine ⟨a, rfl, ?_⟩
    unfold generateAttempt at hat
    split at hat
    · split at hat
      · obtain ⟨b, hb, hbq⟩ := parseLLMResponse_ok lib q _ rng
        rw [hb] at hat
        cases hat
        exact hbq
      · cases hat
    · split at hat
      · split at hat
        · obtain ⟨b, hb, hbq⟩ := parseLLMResponse_ok lib q _ rng
          rw [hb] at hat
          cases hat
          exact hbq
        · cases hat
      · cases hat
  | error e =>
    obtain ⟨v, hv⟩ := generateFallbackAnswer_ok q rng
    exact ⟨_, hv, rfl⟩

theorem generateAnswerWithCount_ok (lib : PyLib) (cfg : Config)
    (provider : ℕ → Except String RawResponse) (q : Question) (rng : Rng) :
    ∃ a, generateAnswerWithCount lib cfg provider q rng = (1, Except.ok a) ∧
      a.question_id = q.id := by
  obtain ⟨a, ha, hq⟩ := generateAnswerBody_ok lib cfg (provider 0) q rng
  refine ⟨a, ?_, hq⟩
  unfold generateAnswerWithCount
  unfold retryCall
  rw [ha]

theorem makeAnswerHumanLike_qid (a : Answer) (q : Question) (rng : Rng) :
    (makeAnswerHumanLike a q rng).question_id = a.question_id := rfl

theorem processOne_ok (lib : PyLib) (cfg : Config) (qe : Question × Env) :
    ∃ a, processOne lib cfg qe = Except.ok a ∧ a.question_id = qe.1.id := by
  obtain ⟨a, ha, hq⟩ :=
    generateAnswerWithCount_ok lib cfg qe.2.provider qe.1 qe.2.genRng
  refine ⟨makeAnswerHumanLike a qe.1 qe.2.humRng, ?_, ?_⟩
  · unfold processOne
    rw [ha]
  · rw [makeAnswerHumanLike_qid]
    exact hq

theorem mapExcept_processOne_ok (lib : PyLib) (cfg : Config) :
    ∀ (xs : List (Question × Env)),
      ∃ as, mapExcept (processOne lib cfg) xs = Except.ok as ∧
        as.length = xs.length ∧
        ∀ (i : ℕ) (h1 : i < xs.length) (h2 : i < as.length),
          (as.get ⟨i, h2⟩).question_id = ((xs.get ⟨i, h1⟩).1).id := by
  intro xs
  induction xs with
  | nil => exact ⟨[], rfl, rfl, fun i h1 _ => absurd h1 (Nat.not_lt_zero i)⟩
  | cons x xs ih =>
    obtain ⟨a, ha, haq⟩ := processOne_ok lib cfg x
    obtain ⟨as, has, hlen, hq⟩ := ih
    refine ⟨a :: as, ?_, ?_, ?_⟩
    · unfold mapExcept
      rw [ha, has]
    · simp [hlen]
    · intro i h1 h2
      cases i with
      | zero => exact haq
      | succ n =>
        exact hq n (Nat.lt_of_succ_lt_succ h1) (Nat.lt_of_succ_lt_succ h2)

theorem mapExcept_append {α β : Type} (f : α → Except String β)
    (xs ys : List α) :
    mapExcept f (xs ++ ys) =
      match mapExcept f xs with
      | Except.ok as =>
        match mapExcept f ys with
        | Except.ok bs => Except.ok (as ++ bs)
        | Except.error e => Except.error e
      | Except.error e => Except.error e := by
  induction xs with
  | nil =>
    simp only [List.nil_append, mapExcept]
    cases mapExcept f ys <;> rfl
  | cons x xs ih =>
    simp only [List.cons_append, mapExcept, List.append_eq]
    rw [ih]
    cases f x with
    | error e => rfl
    | ok y =>
      cases mapExcept f xs with
      | error e => rfl
      | ok as =>
        cases mapExcept f ys <;> rfl

theorem mapExcept_flatten {α β : Type} (f : α → Except String β) :
    ∀ (bs : List (List α)),
      (match mapExcept (fun b => mapExcept f b) bs with
       | Except.ok bss => Except.ok bss.flatten
       | Except.error e => Except.error e) = mapExcept f bs.flatten := by
  intro bs
  induction bs with
  | nil => rfl
  | cons b bs ih =>
    rw [List.flatten_cons, mapExcept_append]
    simp only [mapExcept]
    cases hb : mapExcept f b with
    | error e => rfl
    | ok as =>
      rw [← ih]
      cases mapExcept (fun b => mapExcept f b) bs with
      | error e => rfl
      | ok bss => rfl

theorem chunksOf3_flatten {α : Type} :
    ∀ (xs : List α), (chunksOf3 xs).flatten = xs := by
  intro xs
  induction xs using chunksOf3.induct with
  | case1 => rfl
  | case2 a => rfl
  | case3 a b => rfl
  | case4 a b c rest ih => simp [chunksOf3, ih]

theorem processPollQuestions_eq (lib : PyLib) (cfg : Config)
    (qs : List (Question × Env)) :
    processPollQuestions lib cfg qs = mapExcept (processOne lib cfg) qs := by
  unfold processPollQuestions
  have hm := mapExcept_flatten (processOne lib cfg) (chunksOf3 qs)
  rw [chunksOf3_flatten] at hm
  cases h : mapExcept (fun b => mapExcept (processOne lib cfg) b) (chunksOf3 qs) with
  | ok bss =>
    rw [h] at hm
    dsimp at hm
    exact hm
  | error e =>
    rw [h] at hm
    dsimp at hm
    exact hm

/-- Concrete library behaviour for witnesses: string-to-float always
fails and the rating regex finds nothing. -/
def sampleLib : PyLib := ⟨fun _ => none, fun _ => []⟩

/-- Concrete random oracle for witnesses. -/
def sampleRng : Rng := ⟨0, 0, 0, 0, false, 0, false, 0, 1/10⟩

/-- Concrete yes-no question for witnesses. -/
def sampleYesNo : Question := ⟨1, "Do you like pizza?", "yes-no", [], true⟩

/-- Concrete per-question oracle bundle whose provider always fails. -/
def sampleEnv : Env :=
  ⟨fun _ => Except.error "network down", sampleRng, sampleRng, sampleRng⟩

/-- Concrete four-question input crossing a batch boundary. -/
def sampleBatchInput : List (Question × Env) :=
  [(⟨1, "Do you like pizza?", "yes-no", [], true⟩, sampleEnv),
   (⟨2, "Favorite color?", "single-choice",
      [⟨some "red", some "Red"⟩, ⟨some "blue", some "Blue"⟩], true⟩, sampleEnv),
   (⟨3, "Rate the service", "rating", [], true⟩, sampleEnv),
   (⟨4, "Tell us more", "text", [], true⟩, sampleEnv)]

/-- C1: for every valid input sequence of Questions, the Batch
Orchestrator returns a list of Answers of exactly the same length, in
the same order as the input Questions, and the i-th Answer carries the
i-th Question id, regardless of provider, free-text or fallback path
(the paths are quantified through the per-question oracle bundles). -/
theorem orchestrator_returns_matching_answers (lib : PyLib) (cfg : Config)
    (qs : List (Question × Env)) :
    ∃ as, processPollQuestions lib cfg qs = Except.ok as ∧
      as.length = qs.length ∧
      ∀ (i : ℕ) (h1 : i < qs.length) (h2 : i < as.length),
        (as.get ⟨i, h2⟩).question_id = ((qs.get ⟨i, h1⟩).1).id := by
  obtain ⟨as, h1, h2, h3⟩ := mapExcept_processOne_ok lib cfg qs
  exact ⟨as, by rw [processPollQuestions_eq]; exact h1, h2, h3⟩

/-- Witness for C1 at a concrete four-question input. -/
theorem orchestrator_returns_matching_answers_witness :
    ∃ as, processPollQuestions sampleLib ⟨false, false⟩ sampleBatchInput
        = Except.ok as ∧
      as.length = sampleBatchInput.length ∧
      ∀ (i : ℕ) (h1 : i < sampleBatchInput.length) (h2 : i < as.length),
        (as.get ⟨i, h2⟩).question_id = ((sampleBatchInput.get ⟨i, h1⟩).1).id :=
  orchestrator_returns_matching_answers sampleLib ⟨false, false⟩ sampleBatchInput

/-- C2: for every Answer whose confidence lies in the unit interval
before humanization, one run of the Humanizer leaves the confidence in
the interval from 0.2 to 1. -/
theorem humanizer_confidence_in_range (a : Answer) (q : Question) (rng : Rng)
    (h0 : 0 ≤ a.confidence) (h1 : a.confidence ≤ 1)
    (hu1 : 1/10 ≤ rng.confDrop) (hu2 : rng.confDrop ≤ 3/10) :
    2/10 ≤ (makeAnswerHumanLike a q rng).confidence ∧
      (makeAnswerHumanLike a q rng).confidence ≤ 1 := by
  have hc : (makeAnswerHumanLike a q rng).confidence
      = max (2/10) (a.confidence - rng.confDrop) := rfl
  rw [hc]
  refine ⟨le_max_left _ _, max_le (by norm_num) (by linarith)⟩

/-- Witness for C2 at confidence one half and drop one tenth. -/
theorem humanizer_confidence_in_range_witness :
    2/10 ≤ (makeAnswerHumanLike ⟨1, JValue.jstr "yes", 1/2, JValue.jnull⟩
        sampleYesNo sampleRng).confidence ∧
      (makeAnswerHumanLike ⟨1, JValue.jstr "yes", 1/2, JValue.jnull⟩
        sampleYesNo sampleRng).confidence ≤ 1 :=
  humanizer_confidence_in_range _ _ _ (by norm_num) (by norm_num)
    (by norm_num [sampleRng]) (by norm_num [sampleRng])

/-- C3 counterexample: at input confidence 0 (and drop one tenth, a
value inside the uniform range) the Humanizer raises the confidence to
0.2, so the claim that confidence may only decrease fails for arbitrary
input confidence. -/
theorem humanizer_can_increase_confidence :
    (⟨1, JValue.jstr "ok", 0, JValue.jnull⟩ : Answer).confidence
      < (makeAnswerHumanLike ⟨1, JValue.jstr "ok", 0, JValue.jnull⟩
          sampleYesNo sampleRng).confidence := by
  show (0 : ℚ) < max (2/10) (0 - sampleRng.confDrop)
  norm_num [sampleRng]

/-- C3 amended: the Humanizer never increases confidence provided the
input confidence is at least 0.2; below 0.2 it is raised to exactly
0.2. -/
theorem humanizer_confidence_monotone_from_02 (a : Answer) (q : Question)
    (rng : Rng) (h0 : 2/10 ≤ a.confidence) (hu : 0 ≤ rng.confDrop) :
    (makeAnswerHumanLike a q rng).confidence ≤ a.confidence := by
  have hc : (makeAnswerHumanLike a q rng).confidence
      = max (2/10) (a.confidence - rng.confDrop) := rfl
  rw [hc]
  exact max_le h0 (by linarith)

/-- Witness for the amended C3 at confidence one half. -/
theorem humanizer_confidence_monotone_from_02_witness :
    (makeAnswerHumanLike ⟨1, JValue.jstr "yes", 1/2, JValue.jnull⟩
        sampleYesNo sampleRng).confidence
      ≤ (⟨1, JValue.jstr "yes", 1/2, JValue.jnull⟩ : Answer).confidence :=
  humanizer_confidence_monotone_from_02 _ _ _ (by norm_num)
    (by norm_num [sampleRng])

theorem retryCall3_ok (body : ℕ → Except String Answer) (a : Answer)
    (h : body 0 = Except.ok a) : retryCall body 3 0 = (1, Except.ok a) := by
  unfold retryCall
  rw [h]

theorem generateAnswerWithCount_of_attempt_error (lib : PyLib) (cfg : Config)
    (provider : ℕ → Except String RawResponse) (q : Question) (rng : Rng)
    (e : String)
    (h : generateAttempt lib cfg (provider 0) q rng = Except.error e) :
    generateAnswerWithCount lib cfg provider q rng
      = (1, generateFallbackAnswer q rng) := by
  have hbody : generateAnswerBody lib cfg (provider 0) q rng
      = generateFallbackAnswer q rng := by
    unfold generateAnswerBody
    rw [h]
  obtain ⟨v, hv⟩ := generateFallbackAnswer_ok q rng
  have h1 := retryCall3_ok
    (fun i => generateAnswerBody lib cfg (provider i) q rng) _ (hbody.trans hv)
  unfold generateAnswerWithCount
  rw [h1, hv]

/-- C4 (code bug): whenever the provider call of the first attempt
fails, `generate_answer` makes exactly one attempt and immediately
returns the fallback answer: the internal `try/except` swallows every
exception, so the tenacity retry decorator never observes a failure,
never retries, and no `ProviderError` ever reaches the retry layer. -/
theorem generate_answer_single_attempt_on_failure (lib : PyLib) (cfg : Config)
    (provider : ℕ → Except String RawResponse) (q : Question) (rng : Rng)
    (e : String) (h : provider 0 = Except.error e) :
    generateAnswerWithCount lib cfg provider q rng
      = (1, generateFallbackAnswer q rng) := by
  have hat : ∃ e2, generateAttempt lib cfg (provider 0) q rng
      = Except.error e2 := by
    unfold generateAttempt
    rw [h]
    split
    · exact ⟨e, rfl⟩
    · split
      · exact ⟨e, rfl⟩
      · exact ⟨_, rfl⟩
  obtain ⟨e2, he2⟩ := hat
  exact generateAnswerWithCount_of_attempt_error lib cfg provider q rng e2 he2

/-- Witness for C4: with an OpenAI client configured and a provider
failing on every attempt, exactly one attempt is made and the result is
the fallback answer. -/
theorem generate_answer_single_attempt_on_failure_witness :
    generateAnswerWithCount sampleLib ⟨true, false⟩
        (fun _ => Except.error "timeout") sampleYesNo sampleRng
      = (1, generateFallbackAnswer sampleYesNo sampleRng) :=
  generate_answer_single_attempt_on_failure sampleLib ⟨true, false⟩
    (fun _ => Except.error "timeout") sampleYesNo sampleRng "timeout" rfl

theorem jget_of_not_hasKey (fs : List (String × JValue)) (k : String)
    (d : JValue) (h : hasKey fs k = false) : jget fs k d = d := by
  induction fs with
  | nil => rfl
  | cons p rest ih =>
    cases p with
    | mk k2 v =>
      unfold hasKey at h
      cases hk : (k2 == k) with
      | true => rw [hk] at h; simp at h
      | false =>
        rw [hk] at h
        simp only [Bool.false_or] at h
        unfold jget
        rw [hk]
        simp only [Bool.false_eq_true, if_false]
        exact ih h

/-- C5: a raw response whose brace span decodes to exactly the JSON
object with keys answer, confidence, reasoning round-trips into an
Answer with those fields, without the free-text path or the fallback
synthesizer. -/
theorem parser_json_roundtrip (lib : PyLib) (q : Question) (rng : Rng)
    (r : RawResponse) (span : String) (X : JValue) (C : ℚ) (R : JValue)
    (hl : pyContainsChar r.text lbrace = true)
    (hr : pyContainsChar r.text rbrace = true)
    (hspan : r.braceSpan = some span)
    (hjson : r.spanJson = some (JValue.jobj
      [("answer", X), ("confidence", JValue.jnum C), ("reasoning", R)])) :
    parseLLMResponse lib q r rng =
      Except.ok { question_id := q.id, value := X, confidence := C,
                  reasoning := R } := by
  have hconf : jget [("answer", X), ("confidence", JValue.jnum C),
      ("reasoning", R)] "confidence" (JValue.jnum (7/10)) = JValue.jnum C := rfl
  have hans : jget [("answer", X), ("confidence", JValue.jnum C),
      ("reasoning", R)] "answer" (JValue.jstr "") = X := rfl
  have hreas : jget [("answer", X), ("confidence", JValue.jnum C),
      ("reasoning", R)] "reasoning" (JValue.jstr "") = R := rfl
  unfold parseLLMResponse parseAttempt
  rw [hl, hr, hspan, hjson]
  simp only [Bool.and_self, if_true, hconf, pyFloat, hans, hreas]

/-- Concrete JSON-shaped raw response for the C5 witness. -/
def sampleJsonResponse : RawResponse :=
  ⟨"\x7b\x22answer\x22: \x22Blue\x22, \x22confidence\x22: 0.9, \x22reasoning\x22: \x22seems right\x22\x7d",
   some "\x7b\x22answer\x22: \x22Blue\x22, \x22confidence\x22: 0.9, \x22reasoning\x22: \x22seems right\x22\x7d",
   some (JValue.jobj [("answer", JValue.jstr "Blue"),
     ("confidence", JValue.jnum (9/10)),
     ("reasoning", JValue.jstr "seems right")])⟩

/-- Witness for C5 at a concrete JSON response. -/
theorem parser_json_roundtrip_witness :
    parseLLMResponse sampleLib sampleYesNo sampleJsonResponse sampleRng =
      Except.ok { question_id := 1, value := JValue.jstr "Blue",
                  confidence := 9/10, reasoning := JValue.jstr "seems right" } :=
  parser_json_roundtrip sampleLib sampleYesNo sampleRng sampleJsonResponse
    _ _ _ _ (by decide) (by decide) rfl rfl

/-- C6: on yes-no questions the free-text extraction returns yes when
the (stripped, lowered) text contains an affirmative token, no when it
contains a negative token and no affirmative one, and otherwise the
random draw over the two-element list, which is always yes or no. -/
theorem yes_no_free_text_extraction (lib : PyLib) (q : Question)
    (text : String) (rng : Rng) (hq : q.qtype = "yes-no") :
    (affirmativeTokens.any (fun w => containsSub (pyLower (pyStrip text)) w)
        = true →
      extractAnswerFromText lib q text rng = Except.ok "yes") ∧
    (affirmativeTokens.any (fun w => containsSub (pyLower (pyStrip text)) w)
        = false →
      negativeTokens.any (fun w => containsSub (pyLower (pyStrip text)) w)
        = true →
      extractAnswerFromText lib q text rng = Except.ok "no") ∧
    (affirmativeTokens.any (fun w => containsSub (pyLower (pyStrip text)) w)
        = false →
      negativeTokens.any (fun w => containsSub (pyLower (pyStrip text)) w)
        = false →
      extractAnswerFromText lib q text rng
          = pyChoice ["yes", "no"] rng.coinIdx ∧
        (extractAnswerFromText lib q text rng = Except.ok "yes" ∨
          extractAnswerFromText lib q text rng = Except.ok "no")) := by
  refine ⟨?_, ?_, ?_⟩
  · intro haff
    unfold extractAnswerFromText extractFromStripped
    rw [hq]
    simp only [beq_self_eq_true, if_true, haff]
  · intro haff hneg
    unfold extractAnswerFromText extractFromStripped
    rw [hq]
    simp only [beq_self_eq_true, if_true, haff, hneg, Bool.false_eq_true,
      if_false]
  · intro haff hneg
    have hres : extractAnswerFromText lib q text rng
        = pyChoice ["yes", "no"] rng.coinIdx := by
      unfold extractAnswerFromText extractFromStripped
      rw [hq]
      simp only [beq_self_eq_true, if_true, haff, hneg, Bool.false_eq_true,
        if_false]
    refine ⟨hres, ?_⟩
    rw [hres]
    rcases Nat.mod_two_eq_zero_or_one rng.coinIdx with h2 | h2
    · left
      show Except.ok (List.getD ["yes", "no"] (rng.coinIdx % 2) "yes") = _
      rw [h2]
      rfl
    · right
      show Except.ok (List.getD ["yes", "no"] (rng.coinIdx % 2) "yes") = _
      rw [h2]
      rfl

/-- Witness for C6: a text containing an affirmative token extracts to
yes. -/
theorem yes_no_free_text_extraction_witness :
    extractAnswerFromText sampleLib sampleYesNo "Yes, definitely!" sampleRng
      = Except.ok "yes" :=
  (yes_no_free_text_extraction sampleLib sampleYesNo "Yes, definitely!"
    sampleRng rfl).1 (by decide)

/-- C7 amended: when the brace span parses as a JSON object, an absent
confidence key yields the default 0.7 (and reasoning defaults to empty
when absent, being the default of the reasoning lookup); but when the
confidence value is present and invalid for `float()`, the parser
substitutes the fallback synthesizer answer instead. -/
theorem parser_confidence_default_and_invalid (lib : PyLib) (q : Question)
    (rng : Rng) (r : RawResponse) (span : String)
    (fs : List (String × JValue))
    (hl : pyContainsChar r.text lbrace = true)
    (hr : pyContainsChar r.text rbrace = true)
    (hspan : r.braceSpan = some span)
    (hjson : r.spanJson = some (JValue.jobj fs)) :
    (hasKey fs "confidence" = false →
      parseLLMResponse lib q r rng =
        Except.ok { question_id := q.id,
                    value := jget fs "answer" (JValue.jstr ""),
                    confidence := 7/10,
                    reasoning := jget fs "reasoning" (JValue.jstr "") }) ∧
    (pyFloat lib.strFloat (jget fs "confidence" (JValue.jnum (7/10))) = none →
      parseLLMResponse lib q r rng = generateFallbackAnswer q rng) := by
  constructor
  · intro hk
    have hconf := jget_of_not_hasKey fs "confidence" (JValue.jnum (7/10)) hk
    unfold parseLLMResponse parseAttempt
    rw [hl, hr, hspan, hjson]
    simp only [Bool.and_self, if_true, hconf, pyFloat]
  · intro hfl
    unfold parseLLMResponse parseAttempt
    rw [hl, hr, hspan, hjson]
    simp only [Bool.and_self, if_true, hfl]

/-- Concrete raw response with an absent confidence key, for the C7
witness. -/
def noConfResponse : RawResponse :=
  ⟨"\x7b\x22answer\x22: \x22ok\x22\x7d",
   some "\x7b\x22answer\x22: \x22ok\x22\x7d",
   some (JValue.jobj [("answer", JValue.jstr "ok")])⟩

/-- Witness for the amended C7: absent confidence key gives the 0.7
default and empty reasoning. -/
theorem parser_confidence_default_and_invalid_witness :
    parseLLMResponse sampleLib sampleYesNo noConfResponse sampleRng =
      Except.ok { question_id := 1, value := JValue.jstr "ok",
                  confidence := 7/10, reasoning := JValue.jstr "" } :=
  (parser_confidence_default_and_invalid sampleLib sampleYesNo sampleRng
    noConfResponse "\x7b\x22answer\x22: \x22ok\x22\x7d"
    [("answer", JValue.jstr "ok")]
    (by decide) (by decide) rfl rfl).1 (by decide)

/-- Concrete raw response whose confidence value is JSON null, so that
`float()` raises, for the C7 counterexample. -/
def invalidConfResponse : RawResponse :=
  ⟨"\x7b\x22answer\x22: \x22yes\x22, \x22confidence\x22: null\x7d",
   some "\x7b\x22answer\x22: \x22yes\x22, \x22confidence\x22: null\x7d",
   some (JValue.jobj [("answer", JValue.jstr "yes"),
     ("confidence", JValue.jnull)])⟩

/-- Concrete text-type question for the C7 counterexample. -/
def sampleTextQ : Question := ⟨7, "Tell us more", "text", [], true⟩

/-- C7 counterexample: with a brace span parsing to an object whose
confidence value is null (invalid for coercion), the parsed Answer is
the fallback synthesizer answer with confidence 0.3, not an Answer
with the 0.7 default, refuting the claim that an invalid confidence
yields the default with no fallback substituted. -/
theorem parser_invalid_confidence_uses_fallback :
    parseLLMResponse sampleLib sampleTextQ invalidConfResponse sampleRng =
      Except.ok { question_id := 7,
                  value := JValue.jstr "I\x27m not sure about this",
                  confidence := 3/10,
                  reasoning := JValue.jstr fallbackReasoning } ∧
    ¬ (3/10 : ℚ) = 7/10 := by
  refine ⟨rfl, by norm_num⟩

/-- C8: with neither provider credential configured, every answer that
`generate_answer` produces is exactly the fallback synthesizer answer,
which carries confidence 0.3 and the fixed fallback reasoning before
humanization. -/
theorem degraded_mode_every_answer_is_fallback (lib : PyLib)
    (provider : ℕ → Except String RawResponse) (q : Question) (rng : Rng) :
    (generateAnswerWithCount lib ⟨false, false⟩ provider q rng).2
        = generateFallbackAnswer q rng ∧
      ∃ a, generateFallbackAnswer q rng = Except.ok a ∧
        a.confidence = 3/10 ∧ a.reasoning = JValue.jstr fallbackReasoning := by
  have h := generateAnswerWithCount_of_attempt_error lib ⟨false, false⟩
    provider q rng "No LLM clients available" rfl
  refine ⟨by rw [h], ?_⟩
  obtain ⟨v, hv⟩ := generateFallbackAnswer_ok q rng
  exact ⟨_, hv, rfl, rfl⟩

/-- C9: the fallback synthesizer never raises, for every question
(empty choice options included), and always returns confidence 0.3 and
the fixed fallback reasoning. -/
theorem fallback_synthesizer_never_raises (q : Question) (rng : Rng) :
    ∃ a, generateFallbackAnswer q rng = Except.ok a ∧
      a.confidence = 3/10 ∧ a.reasoning = JValue.jstr fallbackReasoning := by
  obtain ⟨v, hv⟩ := generateFallbackAnswer_ok q rng
  exact ⟨_, hv, rfl, rfl⟩

/-- C10: the statistics denominator is never zero, and with zero
requests the reported average cost per request is the rounded total
cost. -/
theorem get_stats_no_division_by_zero (cfg : Config) (cost : ℚ) (n : ℕ)
    (h : n = 0) :
    (∀ m : ℕ, ((max 1 m : ℕ) : ℚ) ≠ 0) ∧
      (getStats cfg cost n).avg_cost_per_request = pyRound4 cost := by
  constructor
  · intro m
    have h1 : 1 ≤ max 1 m := le_max_left 1 m
    exact Nat.cast_ne_zero.mpr (Nat.one_le_iff_ne_zero.mp h1)
  · subst h
    show pyRound4 (cost / ((max 1 0 : ℕ) : ℚ)) = pyRound4 cost
    have hm : (max 1 0 : ℕ) = 1 := rfl
    rw [hm, Nat.cast_one, div_one]

/-- Witness for C10 at total cost 1 and zero requests. -/
theorem get_stats_no_division_by_zero_witness :
    (∀ m : ℕ, ((max 1 m : ℕ) : ℚ) ≠ 0) ∧
      (getStats ⟨false, false⟩ 1 0).avg_cost_per_request = pyRound4 1 :=
  get_stats_no_division_by_zero ⟨false, false⟩ 1 0 rfl
